import Mathlib

/-!
Verification of the failover routing and job-lifecycle bridging layer of the
string-art-generator repository (`src/gpu_router.py`, `src/app.py`).

The Python code is shallowly embedded: pure computations become Lean
functions, the mutable `GPURouter` object becomes explicit state passing over
a `RouterState` structure, network I/O becomes oracle arguments describing
the response the network would have delivered, and exceptions become
`Except`.  Wall-clock time inside the polling loops is modelled in discrete
half-second units (so the Python intervals 0.5 / 1.0 / 2.0 become the
naturals 1 / 2 / 4, and the ceilings 60 s / 300 s become 120 / 600); the
loops themselves are written with an explicit fuel parameter so that they
are structurally recursive and evaluate by `decide`/`rfl`.
-/

namespace StringArtRouter

/-! ## Adaptive poll intervals (app.py, `handle_start_generation` lines
605-610 and `handle_preprocess` lines 448-453).

`genPollInterval` embeds the generation loop's interval choice,
`prePollInterval` the preprocessing loop's, in seconds as rationals. -/

/-- Interval (seconds) chosen by the generation polling loop for poll count
`n` (app.py lines 605-610). -/
def genPollInterval (n : ℕ) : ℚ :=
  if n < 10 then 1/2
  else if n < 30 then 1
  else 2

/-- Interval (seconds) chosen by the preprocessing polling loop for poll
count `n` (app.py lines 448-453).  Note the middle threshold is 20, not
30. -/
def prePollInterval (n : ℕ) : ℚ :=
  if n < 10 then 1/2
  else if n < 20 then 1
  else 2

/-- The interval schedule asserted by the spec for *both* loops:
0.5 for `n < 10`, 1.0 for `10 ≤ n < 30`, 2.0 for `n ≥ 30`. -/
def specPollInterval (n : ℕ) : ℚ :=
  if n < 10 then 1/2
  else if n < 30 then 1
  else 2

/-- Generation-loop interval in half-second units, used by the embedded
polling loops so that elapsed-time arithmetic stays in `ℕ`. -/
def genPollIntervalH (n : ℕ) : ℕ :=
  if n < 10 then 1
  else if n < 30 then 2
  else 4

/-- Preprocessing-loop interval in half-second units. -/
def prePollIntervalH (n : ℕ) : ℕ :=
  if n < 10 then 1
  else if n < 20 then 2
  else 4

/-! ## Health monitor (gpu_router.py, `check_home_gpu_health`, lines
61-107).

The probe's network outcome is an oracle value: the request either raises
(timeout or any other transport exception) or yields an HTTP response with a
status code and a body that either parses to a health JSON object or fails
to parse (in Python a `response.json()` failure is caught by the generic
`except` clause).  Missing keys default to `False` via `data.get`, so the
parsed body is just the two booleans. -/

/-- The parsed `/health` response body: `data.get("gpu_available", False)`
and `data.get("gpu_busy", False)`. -/
structure HealthData where
  gpu_available : Bool
  gpu_busy : Bool
deriving DecidableEq, Repr

/-- Outcome of the `requests.get(.../health)` probe.  `exn` covers
`requests.Timeout` and every other exception (both are caught and treated
alike apart from the log line); `resp code body` is an HTTP response whose
body parses to `body` when `some`, and raises on `.json()` when `none`. -/
inductive HealthProbe where
  | exn
  | resp (code : ℕ) (body : Option HealthData)
deriving DecidableEq, Repr

/-- Mutable state of the `GPURouter` object (gpu_router.py lines 37-54).
Timestamps are abstract naturals. -/
structure RouterState where
  home_gpu_url : Option String
  home_gpu_available : Bool
  last_health_check : Option ℕ
  home_requests : ℕ
  runpod_requests : ℕ
  home_failures : ℕ
  runpod_failures : ℕ
  total_requests : ℕ
deriving DecidableEq, Repr

/-- Constructor `GPURouter.__init__` (gpu_router.py lines 19-54): health flag down,
no health check recorded, all counters zero. -/
def RouterState.init (url : Option String) : RouterState where
  home_gpu_url := url
  home_gpu_available := false
  last_health_check := none
  home_requests := 0
  runpod_requests := 0
  home_failures := 0
  runpod_failures := 0
  total_requests := 0

/-- Embeds `check_home_gpu_health` (gpu_router.py lines 61-107).  `probe` is what
the network returns, `now` the value `datetime.now()` would produce at the
moment line 87 runs.  Returns the boolean verdict and the updated state. -/
def check_home_gpu_health (s : RouterState) (probe : HealthProbe) (now : ℕ) :
    Bool × RouterState :=
  match s.home_gpu_url with
  | none => (false, s)
  | some _ =>
    match probe with
    | .exn => (false, { s with home_gpu_available := false })
    | .resp code body =>
      if code = 200 then
        match body with
        | none =>
          -- response.json() raised; the generic except clause runs
          (false, { s with home_gpu_available := false })
        | some data =>
          let avail := data.gpu_available && !data.gpu_busy
          (avail, { s with home_gpu_available := avail,
                           last_health_check := some now })
      else
        (false, { s with home_gpu_available := false })

/-! ## Backend calls (gpu_router.py lines 109-395).

Request/response bodies the router never inspects are opaque blobs. -/

/-- An opaque JSON body the router passes through unmodified. -/
structure Body where
  raw : String
deriving DecidableEq, Repr

/-- Network outcome of a synchronous home call (`requests.post` to
`/preprocess` or `/generate`): either the request (or `response.json()`)
raises, or an HTTP response with the given status code arrives whose body
parses to `body`. -/
inductive HomeHTTP where
  | exn
  | resp (code : ℕ) (body : Body)
deriving DecidableEq, Repr

/-- Network outcome of the RunPod `POST /run` submission: either
`requests.post` / `response.json()` raises, or the parsed body arrives.
The code never looks at the RunPod status code (gpu_router.py line 191). -/
inductive RunpodHTTP where
  | exn
  | resp (body : Body)
deriving DecidableEq, Repr

/-- Embeds `_preprocess_on_home` (gpu_router.py lines 129-160).  Increments
`home_requests`, then returns the parsed body on a 200, and otherwise
raises after incrementing `home_failures`; the raise is modelled as
`Except.error` carrying the exception message. -/
def preprocess_on_home (s : RouterState) (h : HomeHTTP) :
    RouterState × Except String (Body × String) :=
  let s1 := { s with home_requests := s.home_requests + 1 }
  match h with
  | .exn =>
    ({ s1 with home_failures := s1.home_failures + 1 },
     .error "home request exception")
  | .resp code body =>
    if code = 200 then (s1, .ok (body, "home"))
    else if code = 503 then
      ({ s1 with home_failures := s1.home_failures + 1 },
       .error "Home GPU is busy")
    else
      ({ s1 with home_failures := s1.home_failures + 1 },
       .error ("Home GPU error: " ++ toString code))

/-- Embeds `_preprocess_on_runpod` (gpu_router.py lines 162-191).  Increments
`runpod_requests` and submits; the response body is returned as-is with
provider `"runpod"`.  A transport exception propagates to the caller
(there is no try/except here); `runpod_failures` is never touched. -/
def preprocess_on_runpod (s : RouterState) (r : RunpodHTTP) :
    RouterState × Except String (Body × String) :=
  let s1 := { s with runpod_requests := s.runpod_requests + 1 }
  match r with
  | .exn => (s1, .error "runpod request exception")
  | .resp body => (s1, .ok (body, "runpod"))

/-- Embeds `preprocess` (gpu_router.py lines 109-127): bump `total_requests`, try
home when configured and healthy, on any home exception drop the health
flag and fall back to RunPod. -/
def preprocess (s : RouterState) (probe : HealthProbe) (now : ℕ)
    (home : HomeHTTP) (rp : RunpodHTTP) :
    RouterState × Except String (Body × String) :=
  let s0 := { s with total_requests := s.total_requests + 1 }
  if s0.home_gpu_url.isSome then
    let (healthy, s1) := check_home_gpu_health s0 probe now
    if healthy then
      match preprocess_on_home s1 home with
      | (s2, .ok r) => (s2, .ok r)
      | (s2, .error _) =>
        preprocess_on_runpod { s2 with home_gpu_available := false } rp
    else preprocess_on_runpod s1 rp
  else preprocess_on_runpod s0 rp

/-- Embeds `_generate_on_home_legacy` (gpu_router.py lines 310-340); same shape
as the home preprocess call. -/
def generate_on_home_legacy (s : RouterState) (h : HomeHTTP) :
    RouterState × Except String (Body × String) :=
  let s1 := { s with home_requests := s.home_requests + 1 }
  match h with
  | .exn =>
    ({ s1 with home_failures := s1.home_failures + 1 },
     .error "home request exception")
  | .resp code body =>
    if code = 200 then (s1, .ok (body, "home"))
    else if code = 503 then
      ({ s1 with home_failures := s1.home_failures + 1 },
       .error "Home GPU is busy")
    else
      ({ s1 with home_failures := s1.home_failures + 1 },
       .error ("Home GPU error: " ++ toString code))

/-- Embeds `_generate_on_runpod` (gpu_router.py lines 342-370); same shape as the
RunPod preprocess submission. -/
def generate_on_runpod (s : RouterState) (r : RunpodHTTP) :
    RouterState × Except String (Body × String) :=
  let s1 := { s with runpod_requests := s.runpod_requests + 1 }
  match r with
  | .exn => (s1, .error "runpod request exception")
  | .resp body => (s1, .ok (body, "runpod"))

/-- Embeds `generate` (gpu_router.py lines 289-308), the legacy synchronous
variant. -/
def generate (s : RouterState) (probe : HealthProbe) (now : ℕ)
    (home : HomeHTTP) (rp : RunpodHTTP) :
    RouterState × Except String (Body × String) :=
  let s0 := { s with total_requests := s.total_requests + 1 }
  if s0.home_gpu_url.isSome then
    let (healthy, s1) := check_home_gpu_health s0 probe now
    if healthy then
      match generate_on_home_legacy s1 home with
      | (s2, .ok r) => (s2, .ok r)
      | (s2, .error _) =>
        generate_on_runpod { s2 with home_gpu_available := false } rp
    else generate_on_runpod s1 rp
  else generate_on_runpod s0 rp

/-! ## The SSE stream relay (gpu_router.py lines 223-287). -/

/-- One SSE event as parsed from a `data: ` line: the router only inspects
`event_data.get("type")`; every other field is the opaque payload. -/
structure EventData where
  type : String
  payload : Body
deriving DecidableEq, Repr

/-- One line of the SSE feed as the relay classifies it:
`other` — empty, or not starting with `"data: "` (silently skipped);
`malformed` — a `data: ` line whose JSON fails to parse (warned, skipped);
`event e` — a well-formed `data: ` line. -/
inductive Frame where
  | other
  | malformed
  | event (e : EventData)
deriving DecidableEq, Repr

/-- The SSE loop of `_generate_stream_on_home` (gpu_router.py lines
258-277): walks the feed, calls `on_event` on every well-formed event (the
first component collects those calls in order), and keeps the latest
`final_sequence` event as `final_result` (the second component). -/
def processFrames : List Frame → Option EventData →
    List EventData × Option EventData
  | [], fin => ([], fin)
  | .other :: rest, fin => processFrames rest fin
  | .malformed :: rest, fin => processFrames rest fin
  | .event e :: rest, fin =>
    let fin' := if e.type = "final_sequence" then some e else fin
    let (evs, f) := processFrames rest fin'
    (e :: evs, f)

/-- Network outcome of the streaming `POST /generate_stream`: a raise, or
an HTTP response with a status code and the list of feed lines delivered
before the feed closed. -/
inductive HomeStreamHTTP where
  | exn
  | resp (code : ℕ) (frames : List Frame)
deriving DecidableEq, Repr

/-- Embeds `_generate_stream_on_home` (gpu_router.py lines 223-287).  Returns the
updated state, the events delivered to `on_event`, and either the final
payload with provider `"home"` or the raised message.  Every raise first
increments `home_failures` (line 286). -/
def generate_stream_on_home (s : RouterState) (h : HomeStreamHTTP) :
    RouterState × List EventData × Except String (EventData × String) :=
  let s1 := { s with home_requests := s.home_requests + 1 }
  match h with
  | .exn =>
    ({ s1 with home_failures := s1.home_failures + 1 }, [],
     .error "home request exception")
  | .resp code frames =>
    if code = 200 then
      let (evs, fin) := processFrames frames none
      match fin with
      | some e => (s1, evs, .ok (e, "home"))
      | none =>
        ({ s1 with home_failures := s1.home_failures + 1 }, evs,
         .error "No final result received from stream")
    else if code = 503 then
      ({ s1 with home_failures := s1.home_failures + 1 }, [],
       .error "Home GPU is busy")
    else
      ({ s1 with home_failures := s1.home_failures + 1 }, [],
       .error ("Home GPU error: " ++ toString code))

/-- The result dictionary of `generate_stream`: either the home stream's
final event or the RunPod submission's parsed body (in Python both are
plain dicts; the embedding keeps their provenance apparent). -/
inductive GenStreamResult where
  | fromHome (e : EventData)
  | fromRunpod (b : Body)
deriving DecidableEq, Repr

/-- Embeds `generate_stream` (gpu_router.py lines 193-221): bump
`total_requests`, try the home streaming path when configured and healthy,
on any exception drop the health flag and fall back to the RunPod
submission.  The second component is the list of stream events the session
callback saw. -/
def generate_stream (s : RouterState) (probe : HealthProbe) (now : ℕ)
    (h : HomeStreamHTTP) (rp : RunpodHTTP) :
    RouterState × List EventData × Except String (GenStreamResult × String) :=
  let s0 := { s with total_requests := s.total_requests + 1 }
  if s0.home_gpu_url.isSome then
    let (healthy, s1) := check_home_gpu_health s0 probe now
    if healthy then
      match generate_stream_on_home s1 h with
      | (s2, evs, .ok (e, prov)) => (s2, evs, .ok (.fromHome e, prov))
      | (s2, evs, .error _) =>
        let (s3, res) :=
          generate_on_runpod { s2 with home_gpu_available := false } rp
        (s3, evs, res.map fun (b, prov) => (.fromRunpod b, prov))
    else
      let (s3, res) := generate_on_runpod s1 rp
      (s3, [], res.map fun (b, prov) => (.fromRunpod b, prov))
  else
    let (s3, res) := generate_on_runpod s0 rp
    (s3, [], res.map fun (b, prov) => (.fromRunpod b, prov))

/-! ## Statistics (gpu_router.py, `get_stats`, lines 372-395). -/

/-- The dictionary `get_stats` returns; rates are exact rationals. -/
structure StatsSnapshot where
  home_requests : ℕ
  runpod_requests : ℕ
  home_failures : ℕ
  runpod_failures : ℕ
  total_requests : ℕ
  home_gpu_available : Bool
  home_gpu_enabled : Bool
  last_health_check : Option ℕ
  home_success_rate : ℚ
  runpod_success_rate : ℚ
deriving DecidableEq, Repr

/-- Embeds `get_stats` (gpu_router.py lines 372-395): each success rate is 0 when
the request counter is 0, and otherwise `(requests - failures) / requests
* 100`, with the subtraction over the integers as in Python. -/
def get_stats (s : RouterState) : StatsSnapshot where
  home_requests := s.home_requests
  runpod_requests := s.runpod_requests
  home_failures := s.home_failures
  runpod_failures := s.runpod_failures
  total_requests := s.total_requests
  home_gpu_available := s.home_gpu_available
  home_gpu_enabled := s.home_gpu_url.isSome
  last_health_check := s.last_health_check
  home_success_rate :=
    if s.home_requests > 0 then
      ((s.home_requests : ℚ) - s.home_failures) / s.home_requests * 100
    else 0
  runpod_success_rate :=
    if s.runpod_requests > 0 then
      ((s.runpod_requests : ℚ) - s.runpod_failures) / s.runpod_requests * 100
    else 0

/-! ## The RunPod polling loops (app.py, `handle_preprocess` lines 437-491
and `handle_start_generation` lines 593-668).

Each poll is a `GET` on the job's status URL; its outcome is an oracle
function from the poll index (0-based: the index is the value of
`poll_count` before the `poll_count += 1` of that iteration) to a
`PollResult`.  Elapsed time is counted in half-second units and advances
by the iteration's sleep interval; the ceilings 300 s and 60 s become 600
and 120.  The loops take an explicit fuel so they are structurally
recursive; `fuelOut` marks exhausted fuel and corresponds to no code
path. -/

/-- The value `poll_json.get('status')` compared against the four RunPod literals;
`other` covers every other value including a missing key. -/
inductive RemoteStatus where
  | inQueue
  | inProgress
  | completed
  | failed
  | other
deriving DecidableEq, Repr

/-- The dictionary `poll_json.get('output', {})` as the loops read it:
`output.get('status')` and `output.get('message')`. -/
structure RpOutput where
  status : Option String
  message : Option String
deriving DecidableEq, Repr

/-- Outcome of one status request: the `requests.get` or `.json()` raised,
or a parsed body arrived with the given status and output. -/
inductive PollResult where
  | exn
  | resp (status : RemoteStatus) (output : RpOutput)
deriving DecidableEq, Repr

/-- How the generation polling loop terminates. -/
inductive GenOutcome where
  | success (out : RpOutput)
  | gpuError (msg : String)
  | jobFailed (msg : String)
  | timedOut
  | pollExn
  | fuelOut
deriving DecidableEq, Repr

/-- The generation polling loop (app.py lines 604-668).  Per iteration:
pick the interval from `poll_count`, sleep (advance `elapsed`), poll, then
branch on the status; `COMPLETED`/`FAILED` break before the timeout check,
every other status falls through to `elapsed > 300` (here `> 600`
half-units).  Returns the outcome and the final `poll_count`, i.e. the
number of status requests issued. -/
def genLoop (r : ℕ → PollResult) : ℕ → ℕ → ℕ → GenOutcome × ℕ
  | 0, pollCount, _ => (.fuelOut, pollCount)
  | fuel + 1, pollCount, elapsed =>
    let elapsed' := elapsed + genPollIntervalH pollCount
    match r pollCount with
    | .exn => (.pollExn, pollCount + 1)
    | .resp status out =>
      match status with
      | .completed =>
        if out.status = some "success" then (.success out, pollCount + 1)
        else (.gpuError (out.message.getD "Unknown GPU error"), pollCount + 1)
      | .failed =>
        (.jobFailed (out.message.getD "Unknown GPU error"), pollCount + 1)
      | _ =>
        if elapsed' > 600 then (.timedOut, pollCount + 1)
        else genLoop r fuel (pollCount + 1) elapsed'

/-- Whether the terminal iteration emits `final_sequence` to the session
(app.py line 646). -/
def genFinalSeqEmitted : GenOutcome → Bool
  | .success _ => true
  | _ => false

/-- The `status` messages the terminal iteration emits to the session
(app.py lines 637, 650, 657, 662, 667); `COMPLETED` emits "Generation
complete!" before inspecting the nested outcome. -/
def genTerminalStatusMsgs : GenOutcome → List String
  | .success _ => ["✅ Generation complete!"]
  | .gpuError m => ["✅ Generation complete!", "❌ GPU Error: " ++ m]
  | .jobFailed m => ["❌ GPU Error: " ++ m]
  | .timedOut => ["❌ Error: Job timed out."]
  | .pollExn => ["❌ Error checking job status."]
  | .fuelOut => []

/-- How the preprocessing polling loop terminates.  `pollExn` is a raise
inside the loop, caught by the handler's outer `except` (app.py line
489). -/
inductive PreOutcome where
  | success
  | outputError (msg : Option String)
  | jobFailed
  | timedOut
  | pollExn
  | fuelOut
deriving DecidableEq, Repr

/-- The preprocessing polling loop (app.py lines 444-487): the wall-clock
bound `time.time() - start_time < 60` (here `elapsed < 120` half-units) is
the `while` condition, checked before each iteration; inside, sleep, poll,
and branch on `COMPLETED`/`FAILED` only. -/
def preLoop (r : ℕ → PollResult) : ℕ → ℕ → ℕ → PreOutcome × ℕ
  | 0, pollCount, _ => (.fuelOut, pollCount)
  | fuel + 1, pollCount, elapsed =>
    if elapsed < 120 then
      let elapsed' := elapsed + prePollIntervalH pollCount
      match r pollCount with
      | .exn => (.pollExn, pollCount + 1)
      | .resp status out =>
        match status with
        | .completed =>
          if out.status = some "success" then (.success, pollCount + 1)
          else (.outputError out.message, pollCount + 1)
        | .failed => (.jobFailed, pollCount + 1)
        | _ => preLoop r fuel (pollCount + 1) elapsed'
    else (.timedOut, pollCount)

/-- Whether the preprocessing outcome emits `preprocessing_complete` to
the session (app.py line 470). -/
def preCompleteEmitted : PreOutcome → Bool
  | .success => true
  | _ => false

/-- The final `status` message the preprocessing handler emits to the
session for each outcome (app.py lines 467, 478, 483, 487, 491): every
non-success outcome emits the same generic text; the remote-embedded
message is only printed to the server log. -/
def preSessionMsg : PreOutcome → String
  | .success => "🚀 READY! RunPod cached (data ready)"
  | .outputError _ => "✅ Image loaded! Click Generate."
  | .jobFailed => "✅ Image loaded! Click Generate."
  | .timedOut => "✅ Image loaded! Click Generate."
  | .pollExn => "✅ Image loaded! Click Generate."
  | .fuelOut => ""

/-- A poll result that keeps the loops going: a parsed response whose
status is neither `COMPLETED` nor `FAILED` (and no raise). -/
def isNonTerminal : PollResult → Bool
  | .exn => false
  | .resp s _ =>
    match s with
    | .completed => false
    | .failed => false
    | _ => true

/-- Extracts the well-formed `final_sequence` event from a feed line, if
any: the event `final_result` would be set to at that line. -/
def finalEvent? (f : Frame) : Option EventData :=
  match f with
  | .event e => if e.type = "final_sequence" then some e else none
  | _ => none

/-- Whether a synchronous home call raises (transport error or a non-200
status; gpu_router.py lines 149-160). -/
def homeCallFails : HomeHTTP → Bool
  | .exn => true
  | .resp code _ => !(code == 200)

/-- Whether the home streaming call raises: transport error, non-200
status, or a 200 feed that closes without a well-formed `final_sequence`
event (gpu_router.py lines 251-287). -/
def streamCallFails : HomeStreamHTTP → Bool
  | .exn => true
  | .resp code frames =>
    if code == 200 then (processFrames frames none).2.isNone else true

/-- One externally triggered router operation, bundling the network
responses the outside world would deliver during it. -/
inductive RouterOp where
  | checkHealth (probe : HealthProbe) (now : ℕ)
  | doPreprocess (probe : HealthProbe) (now : ℕ) (home : HomeHTTP)
      (rp : RunpodHTTP)
  | doGenerate (probe : HealthProbe) (now : ℕ) (home : HomeHTTP)
      (rp : RunpodHTTP)
  | doGenerateStream (probe : HealthProbe) (now : ℕ) (h : HomeStreamHTTP)
      (rp : RunpodHTTP)
  | readStats

/-- State effect of one router operation (`get_stats` reads only). -/
def RouterOp.step (s : RouterState) : RouterOp → RouterState
  | .checkHealth probe now => (check_home_gpu_health s probe now).2
  | .doPreprocess probe now home rp => (preprocess s probe now home rp).1
  | .doGenerate probe now home rp => (generate s probe now home rp).1
  | .doGenerateStream probe now h rp => (generate_stream s probe now h rp).1
  | .readStats => s

/-- The router state after a sequence of operations. -/
def runOps (s : RouterState) (ops : List RouterOp) : RouterState :=
  ops.foldl RouterOp.step s

/-- Whether `needle` occurs at the head of `hay`. -/
def listPrefixEq : List Char → List Char → Bool
  | [], _ => true
  | _ :: _, [] => false
  | a :: as, b :: bs => a == b && listPrefixEq as bs

/-- Whether `needle` occurs contiguously anywhere in `hay`. -/
def containsSub (needle : List Char) : List Char → Bool
  | [] => listPrefixEq needle []
  | b :: bs => listPrefixEq needle (b :: bs) || containsSub needle bs

/-- Whether the string `m` occurs as a substring of `s` — used to state
that an emitted session message does (or does not) carry a remote error
message. -/
def strCarries (m s : String) : Bool :=
  containsSub m.data s.data

/-! # Theorems -/

theorem genPollInterval_eq_half (n : ℕ) :
    genPollInterval n = (genPollIntervalH n : ℚ) / 2 := by
  unfold genPollInterval genPollIntervalH
  split
  · norm_num
  · split <;> norm_num

theorem prePollInterval_eq_half (n : ℕ) :
    prePollInterval n = (prePollIntervalH n : ℚ) / 2 := by
  unfold prePollInterval prePollIntervalH
  split
  · norm_num
  · split <;> norm_num

/-- C1 counterexample: the spec's interval schedule asserts 1.0 time
units at poll count 20 for every polling loop, but the preprocessing
loop's schedule (app.py lines 448-453) already widens to 2.0 there. -/
theorem C1_counterexample :
    prePollInterval 20 = 2 ∧ specPollInterval 20 = 1 := by
  constructor <;> norm_num [prePollInterval, specPollInterval]

/-- C1 (amended): the generation loop's interval schedule is exactly the
stated one (0.5 for `n < 10`, 1.0 for `10 ≤ n < 30`, 2.0 for `n ≥ 30`, so
the stated 0..35 sequence holds for it), while the preprocessing loop uses
1.0 only for `10 ≤ n < 20` and 2.0 from `n ≥ 20` on. -/
theorem C1_intervals :
    (∀ n, genPollInterval n = specPollInterval n) ∧
    ((List.range 36).map genPollInterval =
      List.replicate 10 (1/2 : ℚ) ++ List.replicate 20 1 ++
        List.replicate 6 2) ∧
    (∀ n, n < 10 → prePollInterval n = 1/2) ∧
    (∀ n, 10 ≤ n → n < 20 → prePollInterval n = 1) ∧
    (∀ n, 20 ≤ n → prePollInterval n = 2) := by
  have hN : (List.range 36).map genPollIntervalH =
      List.replicate 10 1 ++ List.replicate 20 2 ++ List.replicate 6 4 := by
    decide
  have hseq : (List.range 36).map genPollInterval =
      List.replicate 10 (1/2 : ℚ) ++ List.replicate 20 1 ++
        List.replicate 6 2 := by
    have hmap : (List.range 36).map genPollInterval =
        ((List.range 36).map genPollIntervalH).map
          (fun h : ℕ => (h : ℚ) / 2) := by
      rw [List.map_map]
      exact List.map_congr_left fun a _ => genPollInterval_eq_half a
    rw [hmap, hN]
    simp only [List.map_append, List.map_replicate]
    norm_num
  refine ⟨fun n => rfl, hseq, ?_, ?_, ?_⟩
  · intro n h
    unfold prePollInterval
    rw [if_pos h]
  · intro n h1 h2
    unfold prePollInterval
    rw [if_neg (by omega), if_pos h2]
  · intro n h
    unfold prePollInterval
    rw [if_neg (by omega), if_neg (by omega)]

/-- C1 witness: the amended schedule evaluated at concrete poll counts. -/
theorem C1_intervals_witness :
    prePollInterval 5 = 1/2 ∧ prePollInterval 15 = 1 ∧
      prePollInterval 25 = 2 :=
  ⟨C1_intervals.2.2.1 5 (by norm_num),
   C1_intervals.2.2.2.1 15 (by norm_num) (by norm_num),
   C1_intervals.2.2.2.2 25 (by norm_num)⟩

/-- C2 counterexample: a health probe attempt that times out at time 42
leaves `last_health_check` untouched (still `none`), so the timestamp is
not updated on every attempt. -/
theorem C2_counterexample :
    (check_home_gpu_health (RouterState.init (some "http://home-gpu"))
        .exn 42).2.last_health_check = none ∧
      (check_home_gpu_health (RouterState.init (some "http://home-gpu"))
        .exn 42).2.last_health_check ≠ some 42 := by
  refine ⟨rfl, ?_⟩
  intro h
  simp [check_home_gpu_health, RouterState.init] at h

/-- C2 (amended): `check_home_gpu_health` updates `last_health_check` to
the attempt time exactly when the probe yields a 200 response whose body
parses; when the endpoint is unconfigured, the probe raises, the status is
non-200, or the body fails to parse, the timestamp is left unchanged. -/
theorem C2_last_health_check :
    ∀ (s : RouterState) (probe : HealthProbe) (now : ℕ),
    (s.home_gpu_url = none →
      (check_home_gpu_health s probe now).2.last_health_check =
        s.last_health_check) ∧
    (probe = .exn →
      (check_home_gpu_health s probe now).2.last_health_check =
        s.last_health_check) ∧
    (∀ c b, probe = .resp c b → c ≠ 200 →
      (check_home_gpu_health s probe now).2.last_health_check =
        s.last_health_check) ∧
    (∀ c, probe = .resp c none →
      (check_home_gpu_health s probe now).2.last_health_check =
        s.last_health_check) ∧
    (∀ d, s.home_gpu_url.isSome = true → probe = .resp 200 (some d) →
      (check_home_gpu_health s probe now).2.last_health_check = some now) := by
  intro s probe now
  refine ⟨?_, ?_, ?_, ?_, ?_⟩
  · intro h
    simp [check_home_gpu_health, h]
  · intro h
    subst h
    cases hu : s.home_gpu_url <;> simp [check_home_gpu_health, hu]
  · intro c b hp hc
    subst hp
    cases hu : s.home_gpu_url <;>
      simp [check_home_gpu_health, hu, hc]
  · intro c hp
    subst hp
    cases hu : s.home_gpu_url with
    | none => simp [check_home_gpu_health, hu]
    | some u =>
      simp only [check_home_gpu_health, hu]
      split <;> rfl
  · intro d hs hp
    subst hp
    obtain ⟨u, hu⟩ := Option.isSome_iff_exists.mp hs
    simp [check_home_gpu_health, hu]

/-- C2 witness: a parsed 200 probe at time 7 records the timestamp. -/
theorem C2_last_health_check_witness :
    (check_home_gpu_health (RouterState.init (some "http://home-gpu"))
        (.resp 200 (some ⟨true, false⟩)) 7).2.last_health_check = some 7 :=
  (C2_last_health_check _ _ _).2.2.2.2 ⟨true, false⟩ rfl rfl

/-- C3: `check_home_gpu_health` returns `true` exactly when the endpoint
is configured and the probe yields a parsed 200 response asserting the GPU
present and not busy; it returns `false` (raising nothing, being a total
function) when the endpoint is unconfigured, the probe raises, the status
is non-200, the body fails to parse, or the body reports
`gpu_available = false` or `gpu_busy = true`. -/
theorem C3_health_verdict :
    ∀ (s : RouterState) (probe : HealthProbe) (now : ℕ),
    ((check_home_gpu_health s probe now).1 = true ↔
      (s.home_gpu_url.isSome = true ∧ ∃ d, probe = .resp 200 (some d) ∧
        d.gpu_available = true ∧ d.gpu_busy = false)) ∧
    (s.home_gpu_url = none → (check_home_gpu_health s probe now).1 = false) ∧
    (probe = .exn → (check_home_gpu_health s probe now).1 = false) ∧
    (∀ c b, probe = .resp c b → c ≠ 200 →
      (check_home_gpu_health s probe now).1 = false) ∧
    (∀ c, probe = .resp c none →
      (check_home_gpu_health s probe now).1 = false) ∧
    (∀ d, probe = .resp 200 (some d) →
      (d.gpu_available = false ∨ d.gpu_busy = true) →
      (check_home_gpu_health s probe now).1 = false) := by
  intro s probe now
  refine ⟨?_, ?_, ?_, ?_, ?_, ?_⟩
  · cases hu : s.home_gpu_url with
    | none => simp [check_home_gpu_health, hu]
    | some u =>
      cases probe with
      | exn => simp [check_home_gpu_health, hu]
      | resp c b =>
        by_cases hc : c = 200
        · subst hc
          cases b with
          | none => simp [check_home_gpu_health, hu]
          | some d =>
            cases hA : d.gpu_available <;> cases hB : d.gpu_busy <;>
              simp [check_home_gpu_health, hu, hA, hB]
        · simp [check_home_gpu_health, hu, hc, Ne.symm hc]
  · intro h
    simp [check_home_gpu_health, h]
  · intro h
    subst h
    cases hu : s.home_gpu_url <;> simp [check_home_gpu_health, hu]
  · intro c b hp hc
    subst hp
    cases hu : s.home_gpu_url <;> simp [check_home_gpu_health, hu, hc]
  · intro c hp
    subst hp
    cases hu : s.home_gpu_url with
    | none => simp [check_home_gpu_health, hu]
    | some u =>
      simp only [check_home_gpu_health, hu]
      split <;> rfl
  · intro d hp hd
    subst hp
    cases hu : s.home_gpu_url with
    | none => simp [check_home_gpu_health, hu]
    | some u =>
      rcases hd with hd | hd <;> simp [check_home_gpu_health, hu, hd]

/-- C3 witness: a busy GPU (`gpu_busy = true`) yields a `false` verdict. -/
theorem C3_health_verdict_witness :
    (check_home_gpu_health (RouterState.init (some "http://home-gpu"))
        (.resp 200 (some ⟨true, true⟩)) 0).1 = false :=
  (C3_health_verdict _ _ _).2.2.2.2.2 ⟨true, true⟩ rfl (Or.inr rfl)

/-- C4: whenever the home endpoint is configured, the health probe passes
(so Home is attempted), the home attempt fails (transport error, non-200
status, or — for the stream — a feed without a final event), and the
RunPod submission succeeds, each submit-style call increments
`home_failures` by exactly one, drops `home_gpu_available`, and returns
the RunPod body with provider `"runpod"`. -/
theorem C4_failover :
    ∀ (s : RouterState) (u : String) (now : ℕ) (d : HealthData)
      (home : HomeHTTP) (hstream : HomeStreamHTTP) (body : Body),
    s.home_gpu_url = some u → d.gpu_available = true → d.gpu_busy = false →
    (homeCallFails home = true →
      (preprocess s (.resp 200 (some d)) now home (.resp body)).1.home_failures
          = s.home_failures + 1 ∧
      (preprocess s (.resp 200 (some d)) now home
          (.resp body)).1.home_gpu_available = false ∧
      (preprocess s (.resp 200 (some d)) now home (.resp body)).2
          = .ok (body, "runpod")) ∧
    (homeCallFails home = true →
      (generate s (.resp 200 (some d)) now home (.resp body)).1.home_failures
          = s.home_failures + 1 ∧
      (generate s (.resp 200 (some d)) now home
          (.resp body)).1.home_gpu_available = false ∧
      (generate s (.resp 200 (some d)) now home (.resp body)).2
          = .ok (body, "runpod")) ∧
    (streamCallFails hstream = true →
      (generate_stream s (.resp 200 (some d)) now hstream
          (.resp body)).1.home_failures = s.home_failures + 1 ∧
      (generate_stream s (.resp 200 (some d)) now hstream
          (.resp body)).1.home_gpu_available = false ∧
      (generate_stream s (.resp 200 (some d)) now hstream
          (.resp body)).2.2 = .ok (.fromRunpod body, "runpod")) := by
  intro s u now d home hstream body hu hA hB
  refine ⟨?_, ?_, ?_⟩
  · intro hfail
    cases home with
    | exn =>
      refine ⟨?_, ?_, ?_⟩ <;>
        simp [preprocess, check_home_gpu_health, preprocess_on_home,
          preprocess_on_runpod, hu, hA, hB]
    | resp c b =>
      have hc : ¬ c = 200 := by
        simpa [homeCallFails] using hfail
      by_cases h503 : c = 503 <;>
        refine ⟨?_, ?_, ?_⟩ <;>
          simp [preprocess, check_home_gpu_health, preprocess_on_home,
            preprocess_on_runpod, hu, hA, hB, hc, h503]
  · intro hfail
    cases home with
    | exn =>
      refine ⟨?_, ?_, ?_⟩ <;>
        simp [generate, check_home_gpu_health, generate_on_home_legacy,
          generate_on_runpod, hu, hA, hB]
    | resp c b =>
      have hc : ¬ c = 200 := by
        simpa [homeCallFails] using hfail
      by_cases h503 : c = 503 <;>
        refine ⟨?_, ?_, ?_⟩ <;>
          simp [generate, check_home_gpu_health, generate_on_home_legacy,
            generate_on_runpod, hu, hA, hB, hc, h503]
  · intro hfail
    cases hstream with
    | exn =>
      refine ⟨?_, ?_, ?_⟩ <;>
        simp [generate_stream, check_home_gpu_health,
          generate_stream_on_home, generate_on_runpod, Except.map, hu, hA,
          hB]
    | resp c frames =>
      by_cases hc : c = 200
      · subst hc
        have hfin : (processFrames frames none).2 = none := by
          have := hfail
          simp [streamCallFails, Option.isNone_iff_eq_none] at this
          exact this
        refine ⟨?_, ?_, ?_⟩ <;>
          · simp only [generate_stream, check_home_gpu_health,
              generate_stream_on_home, generate_on_runpod, hu, hA, hB]
            simp [hfin, Except.map]
      · by_cases h503 : c = 503 <;>
          refine ⟨?_, ?_, ?_⟩ <;>
            simp [generate_stream, check_home_gpu_health,
              generate_stream_on_home, generate_on_runpod, Except.map, hu,
              hA, hB, hc, h503]

/-- C4 witness: a concrete home transport error with a successful RunPod
submission falls over to RunPod and counts one home failure. -/
theorem C4_failover_witness :
    (preprocess (RouterState.init (some "http://home-gpu"))
        (.resp 200 (some ⟨true, false⟩)) 0 .exn
        (.resp ⟨"jobid"⟩)).1.home_failures = 0 + 1 ∧
      (preprocess (RouterState.init (some "http://home-gpu"))
        (.resp 200 (some ⟨true, false⟩)) 0 .exn
        (.resp ⟨"jobid"⟩)).2 = .ok (⟨"jobid"⟩, "runpod") :=
  ⟨((C4_failover _ "http://home-gpu" 0 ⟨true, false⟩ .exn .exn ⟨"jobid"⟩
      rfl rfl rfl).1 rfl).1,
   ((C4_failover _ "http://home-gpu" 0 ⟨true, false⟩ .exn .exn ⟨"jobid"⟩
      rfl rfl rfl).1 rfl).2.2⟩

/-- C9: the success rates reported by `get_stats` are 0 whenever the
provider has no recorded requests (the dividing branch is never taken), and
equal `(requests - failures) / requests * 100` whenever requests are
positive. -/
theorem C9_stats_rates :
    ∀ s : RouterState,
    (s.home_requests = 0 → (get_stats s).home_success_rate = 0) ∧
    (s.runpod_requests = 0 → (get_stats s).runpod_success_rate = 0) ∧
    (0 < s.home_requests → (get_stats s).home_success_rate =
      ((s.home_requests : ℚ) - s.home_failures) / s.home_requests * 100) ∧
    (0 < s.runpod_requests → (get_stats s).runpod_success_rate =
      ((s.runpod_requests : ℚ) - s.runpod_failures) / s.runpod_requests
        * 100) := by
  intro s
  refine ⟨?_, ?_, ?_, ?_⟩ <;> intro h <;> simp [get_stats, h]

/-- C9 witness: a fresh router reports 0% for both providers; a router
with 4 home requests and 1 home failure reports 75%. -/
theorem C9_stats_rates_witness :
    (get_stats (RouterState.init none)).home_success_rate = 0 ∧
    (get_stats (RouterState.init none)).runpod_success_rate = 0 ∧
    (get_stats ⟨none, false, none, 4, 0, 1, 0, 4⟩).home_success_rate =
      ((4 : ℚ) - 1) / 4 * 100 := by
  refine ⟨(C9_stats_rates _).1 rfl, (C9_stats_rates _).2.1 rfl, ?_⟩
  have h := (C9_stats_rates ⟨none, false, none, 4, 0, 1, 0, 4⟩).2.2.1
    (by norm_num)
  simpa using h

/-! Frame lemmas for C10: no router operation ever touches
`runpod_failures`. -/

theorem check_health_runpod_failures (s : RouterState) (probe : HealthProbe)
    (now : ℕ) :
    (check_home_gpu_health s probe now).2.runpod_failures =
      s.runpod_failures := by
  cases hu : s.home_gpu_url with
  | none => simp [check_home_gpu_health, hu]
  | some u =>
    cases probe with
    | exn => simp [check_home_gpu_health, hu]
    | resp c b =>
      cases b with
      | none =>
        simp only [check_home_gpu_health, hu]
        split <;> rfl
      | some d =>
        simp only [check_home_gpu_health, hu]
        split <;> rfl

theorem preprocess_on_home_runpod_failures (s : RouterState) (h : HomeHTTP) :
    (preprocess_on_home s h).1.runpod_failures = s.runpod_failures := by
  cases h with
  | exn => rfl
  | resp c b =>
    simp only [preprocess_on_home]
    split
    · rfl
    · split <;> rfl

theorem preprocess_on_runpod_runpod_failures (s : RouterState)
    (r : RunpodHTTP) :
    (preprocess_on_runpod s r).1.runpod_failures = s.runpod_failures := by
  cases r <;> rfl

theorem generate_on_home_legacy_runpod_failures (s : RouterState)
    (h : HomeHTTP) :
    (generate_on_home_legacy s h).1.runpod_failures = s.runpod_failures := by
  cases h with
  | exn => rfl
  | resp c b =>
    simp only [generate_on_home_legacy]
    split
    · rfl
    · split <;> rfl

theorem generate_on_runpod_runpod_failures (s : RouterState)
    (r : RunpodHTTP) :
    (generate_on_runpod s r).1.runpod_failures = s.runpod_failures := by
  cases r <;> rfl

theorem generate_stream_on_home_runpod_failures (s : RouterState)
    (h : HomeStreamHTTP) :
    (generate_stream_on_home s h).1.runpod_failures = s.runpod_failures := by
  cases h with
  | exn => rfl
  | resp c frames =>
    simp only [generate_stream_on_home]
    split
    · cases hp : processFrames frames none with
      | mk evs fin => cases fin <;> rfl
    · split <;> rfl

theorem preprocess_runpod_failures (s : RouterState) (probe : HealthProbe)
    (now : ℕ) (home : HomeHTTP) (rp : RunpodHTTP) :
    (preprocess s probe now home rp).1.runpod_failures =
      s.runpod_failures := by
  unfold preprocess
  dsimp only
  split
  · cases hc : check_home_gpu_health
        { s with total_requests := s.total_requests + 1 } probe now with
    | mk healthy s1 =>
      have h1 : s1.runpod_failures = s.runpod_failures := by
        have h := check_health_runpod_failures
          { s with total_requests := s.total_requests + 1 } probe now
        rw [hc] at h
        exact h
      dsimp only
      split
      · cases hh : preprocess_on_home s1 home with
        | mk s2 res =>
          have h2 : s2.runpod_failures = s1.runpod_failures := by
            have h := preprocess_on_home_runpod_failures s1 home
            rw [hh] at h
            exact h
          cases res with
          | ok r => exact h2.trans h1
          | error e =>
            rw [preprocess_on_runpod_runpod_failures]
            exact h2.trans h1
      · rw [preprocess_on_runpod_runpod_failures]
        exact h1
  · rw [preprocess_on_runpod_runpod_failures]

theorem generate_runpod_failures (s : RouterState) (probe : HealthProbe)
    (now : ℕ) (home : HomeHTTP) (rp : RunpodHTTP) :
    (generate s probe now home rp).1.runpod_failures = s.runpod_failures := by
  unfold generate
  dsimp only
  split
  · cases hc : check_home_gpu_health
        { s with total_requests := s.total_requests + 1 } probe now with
    | mk healthy s1 =>
      have h1 : s1.runpod_failures = s.runpod_failures := by
        have h := check_health_runpod_failures
          { s with total_requests := s.total_requests + 1 } probe now
        rw [hc] at h
        exact h
      dsimp only
      split
      · cases hh : generate_on_home_legacy s1 home with
        | mk s2 res =>
          have h2 : s2.runpod_failures = s1.runpod_failures := by
            have h := generate_on_home_legacy_runpod_failures s1 home
            rw [hh] at h
            exact h
          cases res with
          | ok r => exact h2.trans h1
          | error e =>
            rw [generate_on_runpod_runpod_failures]
            exact h2.trans h1
      · rw [generate_on_runpod_runpod_failures]
        exact h1
  · rw [generate_on_runpod_runpod_failures]

theorem generate_stream_runpod_failures (s : RouterState)
    (probe : HealthProbe) (now : ℕ) (h : HomeStreamHTTP) (rp : RunpodHTTP) :
    (generate_stream s probe now h rp).1.runpod_failures =
      s.runpod_failures := by
  unfold generate_stream
  dsimp only
  split
  · cases hc : check_home_gpu_health
        { s with total_requests := s.total_requests + 1 } probe now with
    | mk healthy s1 =>
      have h1 : s1.runpod_failures = s.runpod_failures := by
        have hh := check_health_runpod_failures
          { s with total_requests := s.total_requests + 1 } probe now
        rw [hc] at hh
        exact hh
      dsimp only
      split
      · cases hh : generate_stream_on_home s1 h with
        | mk s2 p =>
          have h2 : s2.runpod_failures = s1.runpod_failures := by
            have hrf := generate_stream_on_home_runpod_failures s1 h
            rw [hh] at hrf
            exact hrf
          cases p with
          | mk evs res =>
            cases res with
            | ok r =>
              cases r with
              | mk e prov => exact h2.trans h1
            | error e =>
              dsimp only
              rw [generate_on_runpod_runpod_failures]
              exact h2.trans h1
      · dsimp only
        rw [generate_on_runpod_runpod_failures]
        exact h1
  · dsimp only
    rw [generate_on_runpod_runpod_failures]

theorem step_runpod_failures (s : RouterState) (op : RouterOp) :
    (RouterOp.step s op).runpod_failures = s.runpod_failures := by
  cases op with
  | checkHealth probe now => exact check_health_runpod_failures s probe now
  | doPreprocess probe now home rp =>
    exact preprocess_runpod_failures s probe now home rp
  | doGenerate probe now home rp =>
    exact generate_runpod_failures s probe now home rp
  | doGenerateStream probe now h rp =>
    exact generate_stream_runpod_failures s probe now h rp
  | readStats => rfl

theorem runOps_runpod_failures (ops : List RouterOp) :
    ∀ s : RouterState, (runOps s ops).runpod_failures =
      s.runpod_failures := by
  induction ops with
  | nil => intro s; rfl
  | cons op tl ih =>
    intro s
    show (runOps (RouterOp.step s op) tl).runpod_failures = _
    rw [ih]
    exact step_runpod_failures s op

/-- C10: no router operation ever increments `runpod_failures` — it stays
at its construction value 0 for any operation sequence — so `get_stats`
reports a 100% RunPod success rate whenever `runpod_requests` is positive,
regardless of what actually happened to the submitted jobs. -/
theorem C10_runpod_failures_never_incremented :
    (∀ (s : RouterState) (op : RouterOp),
      (RouterOp.step s op).runpod_failures = s.runpod_failures) ∧
    (∀ (url : Option String) (ops : List RouterOp),
      (runOps (RouterState.init url) ops).runpod_failures = 0) ∧
    (∀ s : RouterState, s.runpod_failures = 0 → 0 < s.runpod_requests →
      (get_stats s).runpod_success_rate = 100) := by
  refine ⟨step_runpod_failures, ?_, ?_⟩
  · intro url ops
    rw [runOps_runpod_failures]
    rfl
  · intro s h0 hpos
    have hne : (s.runpod_requests : ℚ) ≠ 0 := Nat.cast_ne_zero.mpr hpos.ne'
    simp [get_stats, hpos, h0, div_self hne]

/-- C10 witness: a state with three RunPod requests and the invariant
`runpod_failures = 0` reports a 100% RunPod success rate. -/
theorem C10_runpod_failures_never_incremented_witness :
    (get_stats ⟨none, false, none, 0, 3, 0, 0, 3⟩).runpod_success_rate
      = 100 :=
  C10_runpod_failures_never_incremented.2.2 ⟨none, false, none, 0, 3, 0, 0, 3⟩
    rfl (by norm_num)

/-! Polling-loop lemmas: every sleep advances the clock by at least one
half-unit, so both loops reach their wall-clock ceiling; and a loop's
result depends only on the status responses at the polls it actually
issued. -/

theorem genPollIntervalH_pos (n : ℕ) : 1 ≤ genPollIntervalH n := by
  unfold genPollIntervalH
  split
  · omega
  · split <;> omega

theorem prePollIntervalH_pos (n : ℕ) : 1 ≤ prePollIntervalH n := by
  unfold prePollIntervalH
  split
  · omega
  · split <;> omega

theorem genLoop_timeout (fuel : ℕ) :
    ∀ (r : ℕ → PollResult) (pc el : ℕ),
    (∀ i, isNonTerminal (r i) = true) → 1 ≤ fuel → 601 ≤ el + fuel →
    ∃ n, genLoop r fuel pc el = (.timedOut, n) := by
  induction fuel with
  | zero => intro r pc el _ h1 _; exact absurd h1 (by omega)
  | succ m ih =>
    intro r pc el hr _ hle
    have hint := genPollIntervalH_pos pc
    have hnt := hr pc
    simp only [genLoop]
    cases hp : r pc with
    | exn => rw [hp] at hnt; simp [isNonTerminal] at hnt
    | resp st out =>
      rw [hp] at hnt
      cases st with
      | completed => simp [isNonTerminal] at hnt
      | failed => simp [isNonTerminal] at hnt
      | inQueue =>
        dsimp only
        by_cases hgt : el + genPollIntervalH pc > 600
        · exact ⟨pc + 1, by rw [if_pos hgt]⟩
        · rw [if_neg hgt]
          exact ih r (pc + 1) (el + genPollIntervalH pc) hr (by omega)
            (by omega)
      | inProgress =>
        dsimp only
        by_cases hgt : el + genPollIntervalH pc > 600
        · exact ⟨pc + 1, by rw [if_pos hgt]⟩
        · rw [if_neg hgt]
          exact ih r (pc + 1) (el + genPollIntervalH pc) hr (by omega)
            (by omega)
      | other =>
        dsimp only
        by_cases hgt : el + genPollIntervalH pc > 600
        · exact ⟨pc + 1, by rw [if_pos hgt]⟩
        · rw [if_neg hgt]
          exact ih r (pc + 1) (el + genPollIntervalH pc) hr (by omega)
            (by omega)

theorem preLoop_timeout (fuel : ℕ) :
    ∀ (r : ℕ → PollResult) (pc el : ℕ),
    (∀ i, isNonTerminal (r i) = true) → 1 ≤ fuel → 121 ≤ el + fuel →
    ∃ n, preLoop r fuel pc el = (.timedOut, n) := by
  induction fuel with
  | zero => intro r pc el _ h1 _; exact absurd h1 (by omega)
  | succ m ih =>
    intro r pc el hr _ hle
    have hint := prePollIntervalH_pos pc
    have hnt := hr pc
    simp only [preLoop]
    by_cases hel : el < 120
    · rw [if_pos hel]
      cases hp : r pc with
      | exn => rw [hp] at hnt; simp [isNonTerminal] at hnt
      | resp st out =>
        rw [hp] at hnt
        cases st with
        | completed => simp [isNonTerminal] at hnt
        | failed => simp [isNonTerminal] at hnt
        | inQueue =>
          dsimp only
          exact ih r (pc + 1) (el + prePollIntervalH pc) hr (by omega)
            (by omega)
        | inProgress =>
          dsimp only
          exact ih r (pc + 1) (el + prePollIntervalH pc) hr (by omega)
            (by omega)
        | other =>
          dsimp only
          exact ih r (pc + 1) (el + prePollIntervalH pc) hr (by omega)
            (by omega)
    · rw [if_neg hel]
      exact ⟨pc, rfl⟩

theorem genLoop_pc_le (fuel : ℕ) :
    ∀ (r : ℕ → PollResult) (pc el : ℕ), pc ≤ (genLoop r fuel pc el).2 := by
  induction fuel with
  | zero => intro r pc el; exact Nat.le_refl pc
  | succ m ih =>
    intro r pc el
    simp only [genLoop]
    cases hp : r pc with
    | exn => exact Nat.le_succ pc
    | resp st out =>
      cases st with
      | completed =>
        dsimp only
        split <;> exact Nat.le_succ pc
      | failed => exact Nat.le_succ pc
      | inQueue =>
        dsimp only
        by_cases hgt : el + genPollIntervalH pc > 600
        · rw [if_pos hgt]; exact Nat.le_succ pc
        · rw [if_neg hgt]
          exact Nat.le_trans (Nat.le_succ pc) (ih r (pc + 1) _)
      | inProgress =>
        dsimp only
        by_cases hgt : el + genPollIntervalH pc > 600
        · rw [if_pos hgt]; exact Nat.le_succ pc
        · rw [if_neg hgt]
          exact Nat.le_trans (Nat.le_succ pc) (ih r (pc + 1) _)
      | other =>
        dsimp only
        by_cases hgt : el + genPollIntervalH pc > 600
        · rw [if_pos hgt]; exact Nat.le_succ pc
        · rw [if_neg hgt]
          exact Nat.le_trans (Nat.le_succ pc) (ih r (pc + 1) _)

theorem preLoop_pc_le (fuel : ℕ) :
    ∀ (r : ℕ → PollResult) (pc el : ℕ), pc ≤ (preLoop r fuel pc el).2 := by
  induction fuel with
  | zero => intro r pc el; exact Nat.le_refl pc
  | succ m ih =>
    intro r pc el
    simp only [preLoop]
    by_cases hel : el < 120
    · rw [if_pos hel]
      cases hp : r pc with
      | exn => exact Nat.le_succ pc
      | resp st out =>
        cases st with
        | completed =>
          dsimp only
          split <;> exact Nat.le_succ pc
        | failed => exact Nat.le_succ pc
        | inQueue =>
          dsimp only
          exact Nat.le_trans (Nat.le_succ pc) (ih r (pc + 1) _)
        | inProgress =>
          dsimp only
          exact Nat.le_trans (Nat.le_succ pc) (ih r (pc + 1) _)
        | other =>
          dsimp only
          exact Nat.le_trans (Nat.le_succ pc) (ih r (pc + 1) _)
    · rw [if_neg hel]

theorem genLoop_pc_lt (m : ℕ) (r : ℕ → PollResult) (pc el : ℕ) :
    pc < (genLoop r (m + 1) pc el).2 := by
  simp only [genLoop]
  cases hp : r pc with
  | exn => exact Nat.lt_succ_self pc
  | resp st out =>
    cases st with
    | completed =>
      dsimp only
      split <;> exact Nat.lt_succ_self pc
    | failed => exact Nat.lt_succ_self pc
    | inQueue =>
      dsimp only
      by_cases hgt : el + genPollIntervalH pc > 600
      · rw [if_pos hgt]; exact Nat.lt_succ_self pc
      · rw [if_neg hgt]
        exact Nat.lt_of_lt_of_le (Nat.lt_succ_self pc)
          (genLoop_pc_le m r (pc + 1) _)
    | inProgress =>
      dsimp only
      by_cases hgt : el + genPollIntervalH pc > 600
      · rw [if_pos hgt]; exact Nat.lt_succ_self pc
      · rw [if_neg hgt]
        exact Nat.lt_of_lt_of_le (Nat.lt_succ_self pc)
          (genLoop_pc_le m r (pc + 1) _)
    | other =>
      dsimp only
      by_cases hgt : el + genPollIntervalH pc > 600
      · rw [if_pos hgt]; exact Nat.lt_succ_self pc
      · rw [if_neg hgt]
        exact Nat.lt_of_lt_of_le (Nat.lt_succ_self pc)
          (genLoop_pc_le m r (pc + 1) _)

theorem preLoop_pc_lt (m : ℕ) (r : ℕ → PollResult) (pc el : ℕ)
    (hel : el < 120) : pc < (preLoop r (m + 1) pc el).2 := by
  simp only [preLoop, if_pos hel]
  cases hp : r pc with
  | exn => exact Nat.lt_succ_self pc
  | resp st out =>
    cases st with
    | completed =>
      dsimp only
      split <;> exact Nat.lt_succ_self pc
    | failed => exact Nat.lt_succ_self pc
    | inQueue =>
      dsimp only
      exact Nat.lt_of_lt_of_le (Nat.lt_succ_self pc)
        (preLoop_pc_le m r (pc + 1) _)
    | inProgress =>
      dsimp only
      exact Nat.lt_of_lt_of_le (Nat.lt_succ_self pc)
        (preLoop_pc_le m r (pc + 1) _)
    | other =>
      dsimp only
      exact Nat.lt_of_lt_of_le (Nat.lt_succ_self pc)
        (preLoop_pc_le m r (pc + 1) _)

theorem genLoop_agree (fuel : ℕ) :
    ∀ (r r' : ℕ → PollResult) (pc el : ℕ),
    (∀ i, pc ≤ i → i < (genLoop r fuel pc el).2 → r' i = r i) →
    genLoop r' fuel pc el = genLoop r fuel pc el := by
  induction fuel with
  | zero => intro r r' pc el _; rfl
  | succ m ih =>
    intro r r' pc el hag
    have hrr : r' pc = r pc :=
      hag pc (Nat.le_refl pc) (genLoop_pc_lt m r pc el)
    simp only [genLoop]
    rw [hrr]
    cases hp : r pc with
    | exn => rfl
    | resp st out =>
      cases st with
      | completed => rfl
      | failed => rfl
      | inQueue =>
        dsimp only
        by_cases hgt : el + genPollIntervalH pc > 600
        · simp only [if_pos hgt]
        · simp only [if_neg hgt]
          have hred : genLoop r (m + 1) pc el =
              genLoop r m (pc + 1) (el + genPollIntervalH pc) := by
            simp only [genLoop, hp]
            rw [if_neg hgt]
          refine ih r r' (pc + 1) (el + genPollIntervalH pc) ?_
          intro i h1 h2
          refine hag i (by omega) ?_
          rw [hred]
          exact h2
      | inProgress =>
        dsimp only
        by_cases hgt : el + genPollIntervalH pc > 600
        · simp only [if_pos hgt]
        · simp only [if_neg hgt]
          have hred : genLoop r (m + 1) pc el =
              genLoop r m (pc + 1) (el + genPollIntervalH pc) := by
            simp only [genLoop, hp]
            rw [if_neg hgt]
          refine ih r r' (pc + 1) (el + genPollIntervalH pc) ?_
          intro i h1 h2
          refine hag i (by omega) ?_
          rw [hred]
          exact h2
      | other =>
        dsimp only
        by_cases hgt : el + genPollIntervalH pc > 600
        · simp only [if_pos hgt]
        · simp only [if_neg hgt]
          have hred : genLoop r (m + 1) pc el =
              genLoop r m (pc + 1) (el + genPollIntervalH pc) := by
            simp only [genLoop, hp]
            rw [if_neg hgt]
          refine ih r r' (pc + 1) (el + genPollIntervalH pc) ?_
          intro i h1 h2
          refine hag i (by omega) ?_
          rw [hred]
          exact h2

theorem preLoop_agree (fuel : ℕ) :
    ∀ (r r' : ℕ → PollResult) (pc el : ℕ),
    (∀ i, pc ≤ i → i < (preLoop r fuel pc el).2 → r' i = r i) →
    preLoop r' fuel pc el = preLoop r fuel pc el := by
  induction fuel with
  | zero => intro r r' pc el _; rfl
  | succ m ih =>
    intro r r' pc el hag
    by_cases hel : el < 120
    · have hrr : r' pc = r pc :=
        hag pc (Nat.le_refl pc) (preLoop_pc_lt m r pc el hel)
      simp only [preLoop, if_pos hel]
      rw [hrr]
      cases hp : r pc with
      | exn => rfl
      | resp st out =>
        cases st with
        | completed => rfl
        | failed => rfl
        | inQueue =>
          dsimp only
          have hred : preLoop r (m + 1) pc el =
              preLoop r m (pc + 1) (el + prePollIntervalH pc) := by
            simp only [preLoop, if_pos hel, hp]
          refine ih r r' (pc + 1) (el + prePollIntervalH pc) ?_
          intro i h1 h2
          refine hag i (by omega) ?_
          rw [hred]
          exact h2
        | inProgress =>
          dsimp only
          have hred : preLoop r (m + 1) pc el =
              preLoop r m (pc + 1) (el + prePollIntervalH pc) := by
            simp only [preLoop, if_pos hel, hp]
          refine ih r r' (pc + 1) (el + prePollIntervalH pc) ?_
          intro i h1 h2
          refine hag i (by omega) ?_
          rw [hred]
          exact h2
        | other =>
          dsimp only
          have hred : preLoop r (m + 1) pc el =
              preLoop r m (pc + 1) (el + prePollIntervalH pc) := by
            simp only [preLoop, if_pos hel, hp]
          refine ih r r' (pc + 1) (el + prePollIntervalH pc) ?_
          intro i h1 h2
          refine hag i (by omega) ?_
          rw [hred]
          exact h2
    · simp only [preLoop, if_neg hel]

theorem genLoop_stop_on_terminal (m : ℕ) (r : ℕ → PollResult) (pc el : ℕ)
    (st : RemoteStatus) (out : RpOutput) (hp : r pc = .resp st out)
    (hst : st = .completed ∨ st = .failed) :
    (genLoop r (m + 1) pc el).2 = pc + 1 := by
  simp only [genLoop, hp]
  rcases hst with h | h <;> subst h
  · dsimp only
    split <;> rfl
  · rfl

theorem preLoop_stop_on_terminal (m : ℕ) (r : ℕ → PollResult) (pc el : ℕ)
    (st : RemoteStatus) (out : RpOutput) (hel : el < 120)
    (hp : r pc = .resp st out) (hst : st = .completed ∨ st = .failed) :
    (preLoop r (m + 1) pc el).2 = pc + 1 := by
  simp only [preLoop, if_pos hel, hp]
  rcases hst with h | h <;> subst h
  · dsimp only
    split <;> rfl
  · rfl

/-- C5 counterexample: a preprocessing poll that observes `COMPLETED` with
nested `output.status = "error"` and message `"boom"` ends the loop with
the `outputError` outcome, yet the session is sent the generic
"✅ Image loaded! Click Generate." status — which does not carry the
remote-embedded message — rather than a failure carrying `"boom"`. -/
theorem C5_counterexample :
    preLoop (fun _ => .resp .completed ⟨some "error", some "boom"⟩) 5 0 0
        = (.outputError (some "boom"), 1) ∧
    preCompleteEmitted (.outputError (some "boom")) = false ∧
    preSessionMsg (.outputError (some "boom")) =
      "✅ Image loaded! Click Generate." ∧
    strCarries "boom" (preSessionMsg (.outputError (some "boom"))) = false :=
  ⟨rfl, rfl, rfl, by decide⟩

/-- C5 (amended): a poll observing `COMPLETED` with a non-success nested
outcome never yields the success outcome.  In the generation loop the
session receives a GPU-error status carrying the remote-embedded message
(with default `"Unknown GPU error"`) and no `final_sequence` event; in the
preprocessing loop `preprocessing_complete` is not emitted either, but the
remote message is only logged locally and the session receives the generic
"Image loaded" status instead. -/
theorem C5_completed_failure :
    ∀ (r : ℕ → PollResult) (fuel pc el : ℕ) (out : RpOutput),
    r pc = .resp .completed out → out.status ≠ some "success" →
    (genLoop r (fuel + 1) pc el =
        (.gpuError (out.message.getD "Unknown GPU error"), pc + 1) ∧
      genFinalSeqEmitted (.gpuError (out.message.getD "Unknown GPU error"))
        = false ∧
      genTerminalStatusMsgs (.gpuError (out.message.getD "Unknown GPU error"))
        = ["✅ Generation complete!",
           "❌ GPU Error: " ++ out.message.getD "Unknown GPU error"]) ∧
    (el < 120 →
      preLoop r (fuel + 1) pc el = (.outputError out.message, pc + 1) ∧
      preCompleteEmitted (.outputError out.message) = false ∧
      preSessionMsg (.outputError out.message) =
        "✅ Image loaded! Click Generate.") := by
  intro r fuel pc el out hp hns
  constructor
  · refine ⟨?_, rfl, rfl⟩
    simp only [genLoop, hp]
    rw [if_neg hns]
  · intro hel
    refine ⟨?_, rfl, rfl⟩
    simp only [preLoop, if_pos hel, hp]
    rw [if_neg hns]

/-- C5 witness: both loops evaluated on a concrete `COMPLETED`-but-failed
response with message `"m"`. -/
theorem C5_completed_failure_witness :
    genLoop (fun _ => .resp .completed ⟨some "error", some "m"⟩) 1 0 0
        = (.gpuError "m", 1) ∧
    preLoop (fun _ => .resp .completed ⟨some "error", some "m"⟩) 1 0 0
        = (.outputError (some "m"), 1) := by
  have h := C5_completed_failure
    (fun _ => .resp .completed ⟨some "error", some "m"⟩) 0 0 0
    ⟨some "error", some "m"⟩ rfl (by decide)
  exact ⟨h.1.1, (h.2 (by norm_num)).1⟩

/-- C6: (i) if every poll response is non-terminal (neither `COMPLETED`
nor `FAILED`, no raise), each loop ends in `timedOut` once the wall clock
passes its ceiling (600 resp. 120 half-units; the fuel bound only needs to
cover one iteration per remaining half-unit); (ii) a poll observing a
terminal status ends the loop at exactly `pc + 1` status requests; (iii)
each loop's entire result is unchanged under any modification of the
responses at poll indices it never issued — so after a terminal outcome no
further status request is ever observed. -/
theorem C6_timeout_and_terminal :
    (∀ (r : ℕ → PollResult) (fuel pc el : ℕ),
      (∀ i, isNonTerminal (r i) = true) → 1 ≤ fuel → 601 ≤ el + fuel →
      ∃ n, genLoop r fuel pc el = (.timedOut, n)) ∧
    (∀ (r : ℕ → PollResult) (fuel pc el : ℕ),
      (∀ i, isNonTerminal (r i) = true) → 1 ≤ fuel → 121 ≤ el + fuel →
      ∃ n, preLoop r fuel pc el = (.timedOut, n)) ∧
    (∀ (m : ℕ) (r : ℕ → PollResult) (pc el : ℕ) (st : RemoteStatus)
      (out : RpOutput), r pc = .resp st out →
      st = .completed ∨ st = .failed →
      (genLoop r (m + 1) pc el).2 = pc + 1) ∧
    (∀ (m : ℕ) (r : ℕ → PollResult) (pc el : ℕ) (st : RemoteStatus)
      (out : RpOutput), el < 120 → r pc = .resp st out →
      st = .completed ∨ st = .failed →
      (preLoop r (m + 1) pc el).2 = pc + 1) ∧
    (∀ (fuel : ℕ) (r r' : ℕ → PollResult) (pc el : ℕ),
      (∀ i, pc ≤ i → i < (genLoop r fuel pc el).2 → r' i = r i) →
      genLoop r' fuel pc el = genLoop r fuel pc el) ∧
    (∀ (fuel : ℕ) (r r' : ℕ → PollResult) (pc el : ℕ),
      (∀ i, pc ≤ i → i < (preLoop r fuel pc el).2 → r' i = r i) →
      preLoop r' fuel pc el = preLoop r fuel pc el) :=
  ⟨fun r fuel => genLoop_timeout fuel r,
   fun r fuel => preLoop_timeout fuel r,
   fun m r pc el st out hp hst => genLoop_stop_on_terminal m r pc el st out
     hp hst,
   fun m r pc el st out hel hp hst => preLoop_stop_on_terminal m r pc el st
     out hel hp hst,
   fun fuel => genLoop_agree fuel,
   fun fuel => preLoop_agree fuel⟩

/-- C6 witness: with every response `IN_PROGRESS` resp. `IN_QUEUE`, both
loops time out from a fresh start; and a `COMPLETED` first poll stops
either loop after exactly one status request. -/
theorem C6_timeout_and_terminal_witness :
    (∃ n, genLoop (fun _ => .resp .inProgress ⟨none, none⟩) 601 0 0
      = (.timedOut, n)) ∧
    (∃ n, preLoop (fun _ => .resp .inQueue ⟨none, none⟩) 121 0 0
      = (.timedOut, n)) ∧
    (genLoop (fun _ => .resp .completed ⟨some "success", none⟩) 9 0 0).2
      = 0 + 1 ∧
    (preLoop (fun _ => .resp .completed ⟨some "success", none⟩) 9 0 0).2
      = 0 + 1 :=
  ⟨C6_timeout_and_terminal.1 _ 601 0 0 (fun _ => rfl) (by norm_num)
     (by norm_num),
   C6_timeout_and_terminal.2.1 _ 121 0 0 (fun _ => rfl) (by norm_num)
     (by norm_num),
   C6_timeout_and_terminal.2.2.1 8 _ 0 0 .completed ⟨some "success", none⟩
     rfl (Or.inl rfl),
   C6_timeout_and_terminal.2.2.2.1 8 _ 0 0 .completed ⟨some "success", none⟩
     (by norm_num) rfl (Or.inl rfl)⟩

/-! Stream-relay lemmas: the SSE loop's `final_result` variable holds the
last well-formed `final_sequence` event, malformed frames are invisible,
and a feed without a final event leaves it `none`. -/

theorem processFrames_no_final :
    ∀ (frames : List Frame) (fin : Option EventData),
    (∀ e, Frame.event e ∈ frames → e.type ≠ "final_sequence") →
    (processFrames frames fin).2 = fin := by
  intro frames
  induction frames with
  | nil => intro fin _; rfl
  | cons a t ih =>
    intro fin h
    cases a with
    | other =>
      simp only [processFrames]
      exact ih fin fun e he => h e (List.mem_cons_of_mem _ he)
    | malformed =>
      simp only [processFrames]
      exact ih fin fun e he => h e (List.mem_cons_of_mem _ he)
    | event e =>
      have hne : e.type ≠ "final_sequence" := h e (List.mem_cons_self _ _)
      simp only [processFrames]
      rw [if_neg hne]
      cases hp : processFrames t fin with
      | mk evs f =>
        have hf := ih fin fun e2 he2 => h e2 (List.mem_cons_of_mem _ he2)
        rw [hp] at hf
        exact hf

theorem processFrames_snd :
    ∀ (frames : List Frame) (fin : Option EventData),
    (processFrames frames fin).2 =
      ((frames.filterMap finalEvent?).getLast?).or fin := by
  intro frames
  induction frames with
  | nil => intro fin; rfl
  | cons a t ih =>
    intro fin
    cases a with
    | other => simpa [processFrames, finalEvent?] using ih fin
    | malformed => simpa [processFrames, finalEvent?] using ih fin
    | event e =>
      by_cases hf : e.type = "final_sequence"
      · simp only [processFrames, if_pos hf, List.filterMap_cons,
          finalEvent?]
        cases hp : processFrames t (some e) with
        | mk evs f =>
          have h2 := ih (some e)
          rw [hp] at h2
          dsimp only at h2
          rw [h2]
          cases hl : (t.filterMap finalEvent?).getLast? with
          | none =>
            cases hrest : t.filterMap finalEvent? with
            | nil => rfl
            | cons x xs =>
              rw [hrest] at hl
              have : (x :: xs).getLast?.isSome = true :=
                List.getLast?_isSome.mpr (by simp)
              rw [hl] at this
              simp at this
          | some y =>
            cases hrest : t.filterMap finalEvent? with
            | nil => rw [hrest] at hl; simp at hl
            | cons x xs =>
              rw [hrest] at hl
              rw [List.getLast?_cons_cons, hl]
              simp [Option.or]
      · simp only [processFrames, if_neg hf, List.filterMap_cons,
          finalEvent?]
        cases hp : processFrames t fin with
        | mk evs f =>
          have h2 := ih fin
          rw [hp] at h2
          exact h2

/-- C7: (i) a malformed frame anywhere in the feed is dropped without
affecting the relay's behaviour on the rest of the stream (the delivered
events and the final result are those of the feed with the frame removed);
(ii) when the feed closes without any well-formed `final_sequence` event,
the home streaming call raises "No final result received from stream"
(counting a home failure) instead of returning success. -/
theorem C7_malformed_and_missing_final :
    (∀ (xs ys : List Frame) (fin : Option EventData),
      processFrames (xs ++ Frame.malformed :: ys) fin =
        processFrames (xs ++ ys) fin) ∧
    (∀ (s : RouterState) (frames : List Frame),
      (∀ e, Frame.event e ∈ frames → e.type ≠ "final_sequence") →
      generate_stream_on_home s (.resp 200 frames) =
        ({ s with home_requests := s.home_requests + 1,
                  home_failures := s.home_failures + 1 },
         (processFrames frames none).1,
         .error "No final result received from stream")) := by
  constructor
  · intro xs
    induction xs with
    | nil => intro ys fin; rfl
    | cons a t ih =>
      intro ys fin
      cases a with
      | other => simpa [processFrames] using ih ys fin
      | malformed => simpa [processFrames] using ih ys fin
      | event e =>
        simp only [List.cons_append, processFrames, List.append_eq]
        rw [ih ys]
  · intro s frames h
    simp only [generate_stream_on_home]
    rw [if_pos trivial]
    cases hp : processFrames frames none with
    | mk evs fin =>
      have hf := processFrames_no_final frames none h
      rw [hp] at hf
      dsimp only at hf
      subst hf
      rfl

/-- C7 witness: a feed consisting of a progress event, a malformed frame
and a batch event — no `final_sequence` — ends in the protocol-violation
error with one home failure counted. -/
theorem C7_malformed_and_missing_final_witness :
    generate_stream_on_home (RouterState.init (some "http://home-gpu"))
        (.resp 200 [.event ⟨"progress", ⟨"p"⟩⟩, .malformed,
          .event ⟨"new_lines_batch", ⟨"b"⟩⟩]) =
      ({ RouterState.init (some "http://home-gpu") with
          home_requests := 1, home_failures := 1 },
        [⟨"progress", ⟨"p"⟩⟩, ⟨"new_lines_batch", ⟨"b"⟩⟩],
        .error "No final result received from stream") := by
  have h := C7_malformed_and_missing_final.2
    (RouterState.init (some "http://home-gpu"))
    [.event ⟨"progress", ⟨"p"⟩⟩, .malformed,
      .event ⟨"new_lines_batch", ⟨"b"⟩⟩]
    (by
      intro e he
      simp only [List.mem_cons, List.not_mem_nil, or_false] at he
      rcases he with he | he | he <;> simp_all)
  exact h

/-- C8: whenever the home streaming call returns successfully, the
provider is `"home"` and the returned payload is exactly (the whole event,
unmodified) the last well-formed `final_sequence` event of the feed; the
events delivered to the callback are exactly those of the relay loop. -/
theorem C8_final_sequence_payload :
    ∀ (s : RouterState) (frames : List Frame) (s' : RouterState)
      (evs : List EventData) (e : EventData) (prov : String),
    generate_stream_on_home s (.resp 200 frames) = (s', evs, .ok (e, prov)) →
    prov = "home" ∧ (frames.filterMap finalEvent?).getLast? = some e ∧
      evs = (processFrames frames none).1 := by
  intro s frames s' evs e prov h
  simp only [generate_stream_on_home] at h
  rw [if_pos trivial] at h
  cases hp : processFrames frames none with
  | mk evs0 fin0 =>
    rw [hp] at h
    cases fin0 with
    | none => simp at h
    | some e0 =>
      dsimp only at h
      rw [Prod.mk.injEq] at h
      obtain ⟨hs, h'⟩ := h
      rw [Prod.mk.injEq] at h'
      obtain ⟨hevs, hok⟩ := h'
      rw [Except.ok.injEq, Prod.mk.injEq] at hok
      obtain ⟨he, hprov⟩ := hok
      have hsnd := processFrames_snd frames none
      rw [hp] at hsnd
      dsimp only at hsnd
      refine ⟨hprov.symm, ?_, hevs.symm⟩
      cases hl : (frames.filterMap finalEvent?).getLast? with
      | none => rw [hl] at hsnd; simp at hsnd
      | some y =>
        rw [hl] at hsnd
        simp only [Option.or] at hsnd
        rw [← he]
        exact hsnd.symm

/-- C8 witness: a feed with two `final_sequence` events returns the later
one, untouched, with provider `"home"`. -/
theorem C8_final_sequence_payload_witness :
    "home" = "home" ∧
    ([Frame.event ⟨"final_sequence", ⟨"first"⟩⟩,
      Frame.event ⟨"progress", ⟨"p"⟩⟩,
      Frame.event ⟨"final_sequence", ⟨"second"⟩⟩].filterMap
        finalEvent?).getLast? = some ⟨"final_sequence", ⟨"second"⟩⟩ ∧
    [(⟨"final_sequence", ⟨"first"⟩⟩ : EventData),
      ⟨"progress", ⟨"p"⟩⟩, ⟨"final_sequence", ⟨"second"⟩⟩] =
      (processFrames [.event ⟨"final_sequence", ⟨"first"⟩⟩,
        .event ⟨"progress", ⟨"p"⟩⟩,
        .event ⟨"final_sequence", ⟨"second"⟩⟩] none).1 :=
  C8_final_sequence_payload (RouterState.init none) _ _ _
    ⟨"final_sequence", ⟨"second"⟩⟩ "home" rfl

end StringArtRouter
